import Mathlib

/-!
# Recommendation orchestration layer: shallow embedding

A shallow embedding of the recommendation orchestration layer of the backend:
the controller operations (`getRecommendations`, `getSimilar`,
`syncVideoEmbeddings`) and the external scoring client
(`getPersonalizedRecommendations`, `getSimilarVideos`, `submitBatchEmbeddings`,
`syncEmbeddings`, `deleteEmbedding`, `checkHealth`).

Modelling conventions:
* A MongoDB document store of videos is a `List Video`; the various aggregate
  pipelines (`$match` / `$sort` / `$limit`) become `List.filter`,
  a stable sort (`List.insertionSort`, matching the stable key sort of
  `$sort`), and `List.take`.
* The `$lookup` owner join only decorates entries and cannot affect the
  ordering, filtering or identity of results, so the owner projection is kept
  as the `owner` id field of the record.
* The external HTTP service is modelled by its outcome: the client functions
  take the transport result (`Except TransportError payload`) as input, and the
  controller functions take the value the client returned
  (`Option payload`, where `none` is the client's `null` failure signal).
* A JavaScript object field that may be `null`/`undefined` is an `Option`;
  the falsy test `!x.recommendations` on an object field is `Option.isNone`
  (note a present empty array is truthy in JavaScript).
* Floating point scores are only carried through, never computed on; they are
  modelled as `Rat`.
-/

/-- A video document of the `videos` collection (the fields the
recommendation layer reads). -/
structure Video where
  id : String
  owner : String
  views : Nat
  createdAt : Nat
  isPublished : Bool
  title : String
  description : String
deriving Repr, DecidableEq

/-- One entry of the ranked list of the external personalized-scoring
response: `{video_id, final_score, score_breakdown}`. -/
structure ScoredRec where
  video_id : String
  final_score : Rat
  score_breakdown : List (String × Rat)
deriving Repr, DecidableEq

/-- The external personalized-scoring response payload
`{recommendations, watched_count, liked_count}`; the `recommendations`
field may be missing/null (`none`). -/
structure PersonalizedResp where
  recommendations : Option (List ScoredRec)
  watched_count : Nat
  liked_count : Nat
deriving Repr, DecidableEq

/-- One entry of the external similarity response:
`{video_id, similarity_score}`. -/
structure SimEntry where
  video_id : String
  similarity_score : Rat
deriving Repr, DecidableEq

/-- The external similarity response payload `{similar_videos}`; the field
may be missing/null (`none`). -/
structure SimilarResp where
  similar_videos : Option (List SimEntry)
deriving Repr, DecidableEq

/-- An element of the `recommendations` list the controller returns: the
fallback paths return plain video documents, the success path returns
`{video, score, scoreBreakdown}`. -/
inductive RecItem where
  | plain (video : Video)
  | scored (video : Video) (score : Rat) (breakdown : List (String × Rat))
deriving Repr, DecidableEq

/-- The video document carried by a `RecItem`. -/
def RecItem.video : RecItem → Video
  | .plain v => v
  | .scored v _ _ => v

/-- The response body of `getRecommendations` (the data object of the
`ApiResponse`). -/
structure RecResponse where
  recommendations : List RecItem
  fallback : Bool
  reason : Option String
  userProfile : Option (Nat × Nat)
deriving Repr, DecidableEq

/-- An element of the `similarVideos` list of `getSimilar`: plain video in
the fallback, `{video, similarityScore}` on the success path. -/
inductive SimItem where
  | plain (video : Video)
  | scored (video : Video) (similarityScore : Rat)
deriving Repr, DecidableEq

/-- The video document carried by a `SimItem`. -/
def SimItem.video : SimItem → Video
  | .plain v => v
  | .scored v _ => v

/-- The response body of `getSimilar`. -/
structure SimilarOutput where
  sourceVideo : String
  similarVideos : List SimItem
  fallback : Bool
deriving Repr, DecidableEq

/-- An `ApiError` thrown by a controller: status code and message. -/
structure ApiError where
  statusCode : Nat
  message : String
deriving Repr, DecidableEq

/-- The external sync summary (`{processed, new, errors}`-style), passed
through verbatim by the controller. -/
structure SyncResult where
  processed : Nat
  newCount : Nat
  errors : List String
deriving Repr, DecidableEq

/-- Outcome of `syncVideoEmbeddings`: the zero-count short circuit
(`{synced: 0, ...}`) or the external summary passed through. -/
inductive SyncOutcome where
  | noVideos (synced : Nat)
  | synced (result : SyncResult)
deriving Repr, DecidableEq

instance {ε α : Type} [DecidableEq ε] [DecidableEq α] : DecidableEq (Except ε α) :=
  fun x y =>
    match x, y with
    | .ok a, .ok b =>
      if h : a = b then isTrue (by rw [h]) else isFalse (fun hc => h (Except.ok.inj hc))
    | .error a, .error b =>
      if h : a = b then isTrue (by rw [h]) else isFalse (fun hc => h (Except.error.inj hc))
    | .ok _, .error _ => isFalse (fun hc => Except.noConfusion hc)
    | .error _, .ok _ => isFalse (fun hc => Except.noConfusion hc)

/-- The popularity order used by the fallback pipelines:
`$sort: {views: -1, createdAt: -1}` — views descending, then creation time
descending. -/
def popOrder (a b : Video) : Prop :=
  b.views < a.views ∨ (b.views = a.views ∧ b.createdAt ≤ a.createdAt)

instance (a b : Video) : Decidable (popOrder a b) := by
  unfold popOrder; infer_instance

instance : IsTotal Video popOrder := ⟨by intro a b; unfold popOrder; omega⟩

instance : IsTrans Video popOrder := ⟨by intro a b c; unfold popOrder; omega⟩

/-- The order used by the similar-videos fallback pipeline:
`$sort: {views: -1}` — views descending only. -/
def viewsOrder (a b : Video) : Prop := b.views ≤ a.views

instance (a b : Video) : Decidable (viewsOrder a b) := by
  unfold viewsOrder; infer_instance

instance : IsTotal Video viewsOrder := ⟨by intro a b; unfold viewsOrder; omega⟩

instance : IsTrans Video viewsOrder := ⟨by intro a b c; unfold viewsOrder; omega⟩

/-- Stable sort by `(views desc, createdAt desc)`, the `$sort` stage of both
popularity fallback pipelines. -/
def popularitySort (vs : List Video) : List Video :=
  List.insertionSort popOrder vs

/-- Stable sort by `views desc`, the `$sort` stage of the similar-videos
fallback pipeline. -/
def viewsSort (vs : List Video) : List Video :=
  List.insertionSort viewsOrder vs

/-- The Tier 1 return site of `getRecommendations` (no user history):
published videos, popularity order, first `limit`. -/
def noHistoryFallback (store : List Video) (limit : Nat) : RecResponse :=
  { recommendations :=
      ((popularitySort (store.filter (fun v => v.isPublished))).take limit).map RecItem.plain
    fallback := true
    reason := some "No user history available - showing popular videos"
    userProfile := none }

/-- The Tier 2 return site of `getRecommendations` (external service
failed/unusable): published videos with `_id` not in `excludeVideoIds`,
popularity order, first `limit`. -/
def serviceUnavailableFallback (store : List Video) (excludeVideoIds : List String)
    (limit : Nat) : RecResponse :=
  { recommendations :=
      ((popularitySort (store.filter
          (fun v => v.isPublished && !(excludeVideoIds.contains v.id)))).take limit).map
        RecItem.plain
    fallback := true
    reason := some "Recommendation service unavailable - using popularity fallback"
    userProfile := none }

/-- The success return site of `getRecommendations`: fetch the recommended
ids from the store (`$in` match, no published filter), key them by id, and
re-emit in the order of the external ranked list, dropping ids the store
does not contain and attaching score and breakdown. -/
def successResponse (store : List Video) (r : PersonalizedResp)
    (recs : List ScoredRec) : RecResponse :=
  let recommendedIds := recs.map (fun rec => rec.video_id)
  let videos := store.filter (fun v => recommendedIds.contains v.id)
  { recommendations :=
      recs.filterMap (fun rec =>
        (videos.find? (fun v => v.id == rec.video_id)).map
          (fun v => RecItem.scored v rec.final_score rec.score_breakdown))
    fallback := false
    reason := none
    userProfile := some (r.watched_count, r.liked_count) }

/-- The controller `getRecommendations`, with the store and the external
client's return value (`ext`) as explicit inputs. `watchedVideoIds` and
`likedVideoIds` are the user's resolved watch history and liked videos. -/
def getRecommendations (watchedVideoIds likedVideoIds : List String)
    (store : List Video) (ext : Option PersonalizedResp) (limit : Nat) : RecResponse :=
  if watchedVideoIds = [] ∧ likedVideoIds = [] then
    noHistoryFallback store limit
  else
    let excludeVideoIds := (watchedVideoIds ++ likedVideoIds).eraseDups
    match ext with
    | none => serviceUnavailableFallback store excludeVideoIds limit
    | some r =>
      match r.recommendations with
      | none => serviceUnavailableFallback store excludeVideoIds limit
      | some recs => successResponse store r recs

/-- Hex digit test, part of the ObjectId format check. -/
def isHexDigit (c : Char) : Bool :=
  (decide ('0' ≤ c) && decide (c ≤ '9')) || (decide ('a' ≤ c) && decide (c ≤ 'f'))
    || (decide ('A' ≤ c) && decide (c ≤ 'F'))

/-- Embedding of the mongoose library check `isValidObjectId` on a string
argument: a 24-character hex string, or a 12-character (12-byte) string. -/
def isValidObjectId (s : String) : Bool :=
  (s.length == 24 && s.toList.all isHexDigit) || s.length == 12

/-- The fallback return site of `getSimilar`: other published videos of the
same owner, excluding the source video, by views descending, first
`limit`. -/
def sameOwnerFallback (store : List Video) (videoId : String) (video : Video)
    (limit : Nat) : SimilarOutput :=
  { sourceVideo := videoId
    similarVideos :=
      ((viewsSort (store.filter
          (fun v => v.isPublished && !(v.id == videoId) && v.owner == video.owner))).take
        limit).map SimItem.plain
    fallback := true }

/-- The controller `getSimilar`, with the store and the external client's
return value (`ext`) as explicit inputs. -/
def getSimilar (store : List Video) (ext : Option SimilarResp) (videoId : String)
    (limit : Nat) : Except ApiError SimilarOutput :=
  if !(isValidObjectId videoId) then
    .error ⟨400, "Invalid video ID"⟩
  else
    match store.find? (fun v => v.id == videoId) with
    | none => .error ⟨404, "Video not found"⟩
    | some video =>
      match ext with
      | none => .ok (sameOwnerFallback store videoId video limit)
      | some sr =>
        match sr.similar_videos with
        | none => .ok (sameOwnerFallback store videoId video limit)
        | some sims =>
          let similarIds := sims.map (fun s => s.video_id)
          let videos := store.filter (fun v => similarIds.contains v.id)
          .ok { sourceVideo := videoId
                similarVideos :=
                  sims.filterMap (fun s =>
                    (videos.find? (fun v => v.id == s.video_id)).map
                      (fun v => SimItem.scored v s.similarity_score))
                fallback := false }

/-- The batch the sync controller builds from the published catalog:
`{video_id, title, description}` per video. -/
def videosForSync (store : List Video) : List (String × String × String) :=
  (store.filter (fun v => v.isPublished)).map (fun v => (v.id, v.title, v.description))

/-- The controller `syncVideoEmbeddings`, with the store and the external
client's return value (`ext`) as explicit inputs. -/
def syncVideoEmbeddings (store : List Video) (ext : Option SyncResult) :
    Except ApiError SyncOutcome :=
  let videos := store.filter (fun v => v.isPublished)
  if videos.length = 0 then
    .ok (.noVideos 0)
  else
    match ext with
    | none => .error ⟨503, "Recommendation service unavailable"⟩
    | some result => .ok (.synced result)

/-- A transport-level failure of the HTTP client (network error, timeout,
non-2xx status): what the `catch` blocks of the client absorb. -/
structure TransportError where
  message : String
deriving Repr, DecidableEq

/-- The health payload; on transport failure the client fabricates
`{status: "unhealthy", error}` itself. -/
structure HealthStatus where
  status : String
  error : Option String
deriving Repr, DecidableEq

/-- Client operation `getPersonalizedRecommendations`: returns the response
payload, or `null` (`none`) when the transport fails. -/
def getPersonalizedRecommendations
    (transport : Except TransportError PersonalizedResp) : Option PersonalizedResp :=
  match transport with
  | .ok data => some data
  | .error _ => none

/-- Client operation `getSimilarVideos`: payload or `null` on failure. -/
def getSimilarVideos (transport : Except TransportError SimilarResp) :
    Option SimilarResp :=
  match transport with
  | .ok data => some data
  | .error _ => none

/-- Client operation `submitBatchEmbeddings`: payload or `null` on
failure (the payload shape is opaque to the client). -/
def submitBatchEmbeddings {α : Type} (transport : Except TransportError α) : Option α :=
  match transport with
  | .ok data => some data
  | .error _ => none

/-- Client operation `syncEmbeddings`: the sync summary or `null` on
failure. -/
def syncEmbeddings (transport : Except TransportError SyncResult) : Option SyncResult :=
  match transport with
  | .ok data => some data
  | .error _ => none

/-- Client operation `deleteEmbedding`: payload or `null` on failure (the
payload shape is opaque to the client). -/
def deleteEmbedding {α : Type} (transport : Except TransportError α) : Option α :=
  match transport with
  | .ok data => some data
  | .error _ => none

/-- Client operation `checkHealth`: the health payload, or a fabricated
unhealthy status carrying the error message on failure. -/
def checkHealth (transport : Except TransportError HealthStatus) : HealthStatus :=
  match transport with
  | .ok data => data
  | .error e => { status := "unhealthy", error := some e.message }

/-! ### Helper lemmas -/

@[simp] lemma recItem_video_plain (v : Video) : (RecItem.plain v).video = v := rfl

@[simp] lemma recItem_video_scored (v : Video) (s : Rat) (b : List (String × Rat)) :
    (RecItem.scored v s b).video = v := rfl

@[simp] lemma simItem_video_plain (v : Video) : (SimItem.plain v).video = v := rfl

@[simp] lemma simItem_video_scored (v : Video) (s : Rat) :
    (SimItem.scored v s).video = v := rfl

lemma contains_eq_decide_mem {α : Type} [BEq α] [LawfulBEq α] (l : List α) (a : α) :
    l.contains a = decide (a ∈ l) := by
  simp [List.contains, List.elem_eq_mem]

lemma eraseDupsLoop_mem {α : Type} [BEq α] [LawfulBEq α] (as bs : List α) (a : α) :
    a ∈ List.eraseDups.loop as bs ↔ a ∈ as ∨ a ∈ bs := by
  induction as generalizing bs with
  | nil => simp [List.eraseDups.loop]
  | cons x t ih =>
    rw [List.eraseDups.loop]
    cases hx : bs.elem x with
    | true =>
      have hxbs : x ∈ bs := List.elem_iff.mp hx
      rw [ih]
      simp only [List.mem_cons]
      constructor
      · tauto
      · rintro (hc | hc)
        · rcases hc with rfl | hc
          · exact Or.inr hxbs
          · exact Or.inl hc
        · exact Or.inr hc
    | false =>
      rw [ih]
      simp only [List.mem_cons]
      tauto

lemma mem_eraseDups_iff {α : Type} [BEq α] [LawfulBEq α] (as : List α) (a : α) :
    a ∈ as.eraseDups ↔ a ∈ as := by
  rw [List.eraseDups, eraseDupsLoop_mem]
  simp

lemma find?_filter_contains (store : List Video) (ids : List String) (id : String)
    (hid : id ∈ ids) :
    (store.filter (fun v => ids.contains v.id)).find? (fun v => v.id == id)
      = store.find? (fun v => v.id == id) := by
  induction store with
  | nil => rfl
  | cons v t ih =>
    rw [List.filter_cons]
    cases hc : ids.contains v.id with
    | true =>
      rw [if_pos rfl, List.find?_cons, List.find?_cons]
      cases hpv : (v.id == id) with
      | true => rfl
      | false => simpa using ih
    | false =>
      rw [if_neg (by simp), List.find?_cons]
      cases hpv : (v.id == id) with
      | true =>
        have hv : v.id = id := by simpa using hpv
        rw [contains_eq_decide_mem, hv] at hc
        simp [hid] at hc
      | false => simpa using ih

lemma filterMap_congr_mem {α β : Type} (f g : α → Option β) (l : List α)
    (h : ∀ a ∈ l, f a = g a) : l.filterMap f = l.filterMap g := by
  induction l with
  | nil => rfl
  | cons a t ih =>
    rw [List.filterMap_cons, List.filterMap_cons, h a (List.mem_cons_self a t),
      ih (fun b hb => h b (List.mem_cons_of_mem a hb))]

lemma successResponse_recommendations (store : List Video) (r : PersonalizedResp)
    (recs : List ScoredRec) :
    (successResponse store r recs).recommendations
      = recs.filterMap (fun rec =>
          (store.find? (fun v => v.id == rec.video_id)).map
            (fun v => RecItem.scored v rec.final_score rec.score_breakdown)) := by
  unfold successResponse
  apply filterMap_congr_mem
  intro rec hrec
  rw [find?_filter_contains store (recs.map (fun rec => rec.video_id)) rec.video_id
    (List.mem_map_of_mem _ hrec)]

lemma ids_of_filterMap (store : List Video) (recs : List ScoredRec) :
    ((recs.filterMap (fun rec =>
        (store.find? (fun v => v.id == rec.video_id)).map
          (fun v => RecItem.scored v rec.final_score rec.score_breakdown))).map
      (fun i => (RecItem.video i).id))
    = (recs.map (fun rec => rec.video_id)).filter
        (fun id => (store.map Video.id).contains id) := by
  induction recs with
  | nil => rfl
  | cons rec t ih =>
    rw [List.filterMap_cons, List.map_cons, List.filter_cons]
    cases hf : store.find? (fun v => v.id == rec.video_id) with
    | none =>
      rw [List.find?_eq_none] at hf
      have hne : ¬∃ a ∈ store, a.id = rec.video_id := by
        rintro ⟨a, ha, haid⟩
        exact hf a ha (by simp [haid])
      simp [ih]
      rw [if_neg hne]
    | some v =>
      have hvid : v.id = rec.video_id := by
        have := List.find?_some hf
        simpa using this
      simp [ih]
      rw [if_pos ⟨v, List.mem_of_find?_eq_some hf, hvid⟩, hvid]

lemma length_sortTake (r : Video → Video → Prop) [DecidableRel r] (vs : List Video)
    (n : Nat) : ((List.insertionSort r vs).take n).length ≤ n := by
  rw [List.length_take]
  exact Nat.min_le_left _ _

lemma sorted_sortTake (r : Video → Video → Prop) [DecidableRel r] [IsTotal Video r]
    [IsTrans Video r] (vs : List Video) (n : Nat) :
    ((List.insertionSort r vs).take n).Pairwise r :=
  List.Pairwise.sublist (List.take_sublist n _) (List.sorted_insertionSort r vs)

lemma mem_sortTake {r : Video → Video → Prop} [DecidableRel r] {vs : List Video}
    {n : Nat} {v : Video} (h : v ∈ (List.insertionSort r vs).take n) : v ∈ vs := by
  have h1 := List.mem_of_mem_take h
  rwa [List.mem_insertionSort] at h1

lemma nodup_ids_sortTake (r : Video → Video → Prop) [DecidableRel r] (vs : List Video)
    (n : Nat) (h : (vs.map Video.id).Nodup) :
    (((List.insertionSort r vs).take n).map Video.id).Nodup := by
  have hperm : List.Perm ((List.insertionSort r vs).map Video.id) (vs.map Video.id) :=
    (List.perm_insertionSort r vs).map _
  have h2 : ((List.insertionSort r vs).map Video.id).Nodup := hperm.nodup_iff.mpr h
  exact List.Nodup.sublist ((List.take_sublist n _).map _) h2

lemma getRecommendations_eq_tier1 (store : List Video) (ext : Option PersonalizedResp)
    (limit : Nat) :
    getRecommendations [] [] store ext limit = noHistoryFallback store limit := by
  rw [getRecommendations, if_pos ⟨rfl, rfl⟩]

lemma getRecommendations_eq_tier2 (w l : List String) (store : List Video)
    (ext : Option PersonalizedResp) (limit : Nat) (hne : ¬(w = [] ∧ l = []))
    (hfail : ext.bind PersonalizedResp.recommendations = none) :
    getRecommendations w l store ext limit
      = serviceUnavailableFallback store ((w ++ l).eraseDups) limit := by
  rw [getRecommendations, if_neg hne]
  cases ext with
  | none => rfl
  | some r =>
    simp only [Option.some_bind] at hfail
    simp [hfail]

lemma getRecommendations_eq_success (w l : List String) (store : List Video)
    (r : PersonalizedResp) (recs : List ScoredRec) (limit : Nat)
    (hne : ¬(w = [] ∧ l = [])) (hr : r.recommendations = some recs) :
    getRecommendations w l store (some r) limit = successResponse store r recs := by
  rw [getRecommendations, if_neg hne]
  simp [hr]

lemma serviceUnavailableFallback_mem (store : List Video) (ex : List String)
    (limit : Nat) :
    ∀ item ∈ (serviceUnavailableFallback store ex limit).recommendations,
      ∃ v, item = RecItem.plain v ∧ v ∈ store ∧ v.isPublished = true ∧
        ex.contains v.id = false := by
  intro item hitem
  unfold serviceUnavailableFallback popularitySort at hitem
  rw [List.mem_map] at hitem
  obtain ⟨v, hv, rfl⟩ := hitem
  have hvmem := mem_sortTake hv
  rw [List.mem_filter, Bool.and_eq_true] at hvmem
  obtain ⟨hvstore, hvpub, hvnot⟩ := hvmem
  rw [Bool.not_eq_true'] at hvnot
  exact ⟨v, rfl, hvstore, hvpub, hvnot⟩

lemma nodup_ids_fallback (r : Video → Video → Prop) [DecidableRel r] (store : List Video)
    (p : Video → Bool) (n : Nat) (hstore : (store.map Video.id).Nodup) :
    ((((List.insertionSort r (store.filter p)).take n).map RecItem.plain).map
      (fun i => (RecItem.video i).id)).Nodup := by
  rw [List.map_map]
  have hcomp : ((fun i => (RecItem.video i).id) ∘ RecItem.plain) = Video.id := rfl
  rw [hcomp]
  exact nodup_ids_sortTake r _ n
    (List.Nodup.sublist ((List.filter_sublist store).map _) hstore)

/-! ### Claim theorems -/

/-- Claim C1: on the success path, the output is the external ranked list
re-emitted in its exact order, with entries whose `video_id` the video
store does not contain removed and `score`/`scoreBreakdown` attached to
each surviving entry; the output ids are precisely the ranked ids filtered
to those present — never reordered, re-inserted, or padded back to
`limit`. -/
theorem c1_success_order_and_filter (w l : List String) (store : List Video)
    (r : PersonalizedResp) (recs : List ScoredRec) (limit : Nat)
    (hne : ¬(w = [] ∧ l = []))
    (hr : r.recommendations = some recs) :
    (getRecommendations w l store (some r) limit).fallback = false ∧
    (getRecommendations w l store (some r) limit).recommendations
      = recs.filterMap (fun rec =>
          (store.find? (fun v => v.id == rec.video_id)).map
            (fun v => RecItem.scored v rec.final_score rec.score_breakdown)) ∧
    (getRecommendations w l store (some r) limit).recommendations.map
        (fun i => (RecItem.video i).id)
      = (recs.map (fun rec => rec.video_id)).filter
          (fun id => (store.map Video.id).contains id) := by
  rw [getRecommendations_eq_success w l store r recs limit hne hr]
  refine ⟨rfl, successResponse_recommendations store r recs, ?_⟩
  rw [successResponse_recommendations store r recs]
  exact ids_of_filterMap store recs

/-- Demo video for the C1 witness (the surviving V7 of the spec scenario). -/
def demoV7 : Video := ⟨"v7", "o1", 10, 5, true, "t7", "d7"⟩

/-- Demo external response for the C1 witness: ranked list [V9, V7] where V9
is absent from the store. -/
def demoResp : PersonalizedResp :=
  ⟨some [⟨"v9", 9, []⟩, ⟨"v7", 8, []⟩], 2, 1⟩

/-- Witness for C1: the spec scenario — external ranked list `[V9, V7]`,
`V9` deleted from the catalog — yields exactly the single V7 entry with its
score (length 1, not padded back to 2). -/
theorem c1_success_order_and_filter_witness :
    (getRecommendations ["v1"] [] [demoV7] (some demoResp) 10).fallback = false ∧
    (getRecommendations ["v1"] [] [demoV7] (some demoResp) 10).recommendations
      = [RecItem.scored demoV7 8 []] := by
  have h := c1_success_order_and_filter ["v1"] [] [demoV7] demoResp
    [⟨"v9", 9, []⟩, ⟨"v7", 8, []⟩] 10 (by simp) rfl
  exact ⟨h.1, h.2.1.trans (by decide)⟩

/-- Claim C2: for a user with non-empty history, when the external call
failed (client returned `null`) or the response lacks a usable
`recommendations` list, `getRecommendations` returns the Tier 2 popularity
fallback — published videos outside the exclusion set, in `(views desc,
createdAt desc)` order, truncated to `limit`, with `fallback = true` and
the service-unavailable reason — never an error. -/
theorem c2_service_failure_popularity_fallback (w l : List String) (store : List Video)
    (ext : Option PersonalizedResp) (limit : Nat)
    (hne : ¬(w = [] ∧ l = []))
    (hfail : ext.bind PersonalizedResp.recommendations = none) :
    (getRecommendations w l store ext limit).fallback = true ∧
    (getRecommendations w l store ext limit).reason
      = some "Recommendation service unavailable - using popularity fallback" ∧
    (getRecommendations w l store ext limit).recommendations
      = ((popularitySort (store.filter (fun v =>
            v.isPublished && !(((w ++ l).eraseDups).contains v.id)))).take limit).map
          RecItem.plain ∧
    ((getRecommendations w l store ext limit).recommendations.map
        RecItem.video).Pairwise popOrder ∧
    (getRecommendations w l store ext limit).recommendations.length ≤ limit ∧
    ∀ item ∈ (getRecommendations w l store ext limit).recommendations,
      item.video ∈ store ∧ item.video.isPublished = true ∧
        item.video.id ∉ w ∧ item.video.id ∉ l := by
  rw [getRecommendations_eq_tier2 w l store ext limit hne hfail]
  refine ⟨rfl, rfl, rfl, ?_, ?_, ?_⟩
  · unfold serviceUnavailableFallback popularitySort
    rw [List.map_map]
    have hcomp : (RecItem.video ∘ RecItem.plain) = id := rfl
    rw [hcomp, List.map_id]
    exact sorted_sortTake popOrder _ limit
  · unfold serviceUnavailableFallback
    rw [List.length_map]
    exact length_sortTake popOrder _ limit
  · intro item hitem
    obtain ⟨v, rfl, hvstore, hvpub, hvnc⟩ :=
      serviceUnavailableFallback_mem store _ limit item hitem
    have hnotin : v.id ∉ w ++ l := by
      rw [contains_eq_decide_mem] at hvnc
      have h2 := of_decide_eq_false hvnc
      rwa [mem_eraseDups_iff] at h2
    simp only [recItem_video_plain]
    exact ⟨hvstore, hvpub, fun hw => hnotin (List.mem_append_left _ hw),
      fun hl => hnotin (List.mem_append_right _ hl)⟩

/-- Demo videos for the C2 witness (the spec scenario: V4 with 100 views,
V5 with 50 views, both published). -/
def demoV4 : Video := ⟨"v4", "o1", 100, 1, true, "t4", "d4"⟩

/-- Second demo video for the C2 witness. -/
def demoV5 : Video := ⟨"v5", "o1", 50, 1, true, "t5", "d5"⟩

/-- Witness for C2 at the spec scenario: watched `[v1, v2]`, liked `[v3]`,
service unreachable, catalog `{V4 (100 views), V5 (50 views)}` — the result
is `[V4, V5]` in popularity order with the fallback flag set. -/
theorem c2_service_failure_popularity_fallback_witness :
    (getRecommendations ["v1", "v2"] ["v3"] [demoV5, demoV4] none 10).fallback = true ∧
    (getRecommendations ["v1", "v2"] ["v3"] [demoV5, demoV4] none 10).recommendations
      = [RecItem.plain demoV4, RecItem.plain demoV5] := by
  have h := c2_service_failure_popularity_fallback ["v1", "v2"] ["v3"] [demoV5, demoV4]
    none 10 (by simp) rfl
  exact ⟨h.1, h.2.2.1.trans (by decide)⟩

/-- Claim C3: assuming the store has no duplicate ids and, on the success
path, the external ranked list has no duplicate ids and respects `limit`
(exactly the proviso of the claim), every `getRecommendations` response has
no duplicate video entry and no more than `limit` entries. -/
theorem c3_nodup_and_limit_bound (w l : List String) (store : List Video)
    (ext : Option PersonalizedResp) (limit : Nat)
    (hstore : (store.map Video.id).Nodup)
    (hext : ∀ r recs, ext = some r → r.recommendations = some recs →
      (recs.map (fun rec => rec.video_id)).Nodup ∧ recs.length ≤ limit) :
    ((getRecommendations w l store ext limit).recommendations.map
        (fun i => (RecItem.video i).id)).Nodup ∧
    (getRecommendations w l store ext limit).recommendations.length ≤ limit := by
  by_cases hwl : w = [] ∧ l = []
  · obtain ⟨rfl, rfl⟩ := hwl
    rw [getRecommendations_eq_tier1]
    constructor
    · unfold noHistoryFallback popularitySort
      exact nodup_ids_fallback popOrder store _ limit hstore
    · unfold noHistoryFallback
      rw [List.length_map]
      exact length_sortTake popOrder _ limit
  · cases hbind : ext.bind PersonalizedResp.recommendations with
    | none =>
      rw [getRecommendations_eq_tier2 w l store ext limit hwl hbind]
      constructor
      · unfold serviceUnavailableFallback popularitySort
        exact nodup_ids_fallback popOrder store _ limit hstore
      · unfold serviceUnavailableFallback
        rw [List.length_map]
        exact length_sortTake popOrder _ limit
    | some recs =>
      obtain ⟨r, rfl⟩ : ∃ r, ext = some r := by
        cases ext with
        | none => simp at hbind
        | some r => exact ⟨r, rfl⟩
      rw [Option.some_bind] at hbind
      obtain ⟨hnodup, hlen⟩ := hext r recs rfl hbind
      rw [getRecommendations_eq_success w l store r recs limit hwl hbind]
      constructor
      · rw [successResponse_recommendations, ids_of_filterMap]
        exact List.Nodup.sublist (List.filter_sublist _) hnodup
      · rw [successResponse_recommendations]
        exact le_trans (List.length_filterMap_le _ _) hlen

/-- Witness for C3: a two-video store with distinct ids, failing external
call, `limit = 1` — the response has distinct ids and at most one entry. -/
theorem c3_nodup_and_limit_bound_witness :
    ((getRecommendations ["v1"] [] [demoV4, demoV5] none 1).recommendations.map
        (fun i => (RecItem.video i).id)).Nodup ∧
    (getRecommendations ["v1"] [] [demoV4, demoV5] none 1).recommendations.length ≤ 1 :=
  c3_nodup_and_limit_bound ["v1"] [] [demoV4, demoV5] none 1 (by decide)
    (fun r recs h => Option.noConfusion h)

/-- Demo video for the C4 counterexample: present in the store but
unpublished. -/
def unpublishedVideo : Video := ⟨"v9", "o1", 10, 5, false, "t9", "d9"⟩

/-- Demo external response for the C4 counterexample: ranks exactly the
unpublished video. -/
def unpublishedResp : PersonalizedResp := ⟨some [⟨"v9", 1, []⟩], 1, 0⟩

/-- Counterexample to claim C4 as stated: the success-path re-join
(`$match` on `_id $in` with no `isPublished` condition) does NOT drop a
video that was unpublished since indexing — the unpublished record appears
in the successful response, so not every entry references a video of the
published catalog. -/
theorem c4_counterexample :
    unpublishedVideo.isPublished = false ∧
    (getRecommendations ["w1"] [] [unpublishedVideo] (some unpublishedResp) 10).fallback
      = false ∧
    (getRecommendations ["w1"] [] [unpublishedVideo] (some unpublishedResp) 10).recommendations
      = [RecItem.scored unpublishedVideo 1 []] := by
  refine ⟨rfl, ?_, ?_⟩ <;> decide

/-- Claim C4 (amended): on the success path, every external `video_id` for
which the video store holds no record at all (deleted) is silently dropped
without error, and every entry of a successful response references a video
record that currently exists in the store — published or not (the re-join
does not filter on `isPublished`). -/
theorem c4_success_drops_only_missing_ids (w l : List String) (store : List Video)
    (r : PersonalizedResp) (recs : List ScoredRec) (limit : Nat)
    (hne : ¬(w = [] ∧ l = []))
    (hr : r.recommendations = some recs) :
    (∀ item ∈ (getRecommendations w l store (some r) limit).recommendations,
      item.video ∈ store) ∧
    (∀ rec ∈ recs, (∀ v ∈ store, v.id ≠ rec.video_id) →
      rec.video_id ∉ (getRecommendations w l store (some r) limit).recommendations.map
        (fun i => (RecItem.video i).id)) := by
  rw [getRecommendations_eq_success w l store r recs limit hne hr,
    successResponse_recommendations store r recs]
  constructor
  · intro item hitem
    rw [List.mem_filterMap] at hitem
    obtain ⟨rec, hrec, hsome⟩ := hitem
    rw [Option.map_eq_some'] at hsome
    obtain ⟨v, hf, rfl⟩ := hsome
    simp only [recItem_video_scored]
    exact List.mem_of_find?_eq_some hf
  · intro rec hrec hnone hmem
    rw [ids_of_filterMap store recs, List.mem_filter] at hmem
    obtain ⟨hmem1, hcontains⟩ := hmem
    rw [contains_eq_decide_mem] at hcontains
    have h2 := of_decide_eq_true hcontains
    rw [List.mem_map] at h2
    obtain ⟨v, hv, hvid⟩ := h2
    exact hnone v hv hvid

/-- Witness for the amended C4: the surviving entry of the counterexample
store references a record that exists in the store. -/
theorem c4_success_drops_only_missing_ids_witness :
    (RecItem.scored unpublishedVideo 1 []).video ∈ ([unpublishedVideo] : List Video) :=
  (c4_success_drops_only_missing_ids ["w1"] [] [unpublishedVideo] unpublishedResp
    [⟨"v9", 1, []⟩] 10 (by simp) rfl).1 (RecItem.scored unpublishedVideo 1 []) (by decide)

/-- Claim C5: for a user whose watch history and liked list are both
empty, `getRecommendations` is independent of the external response (the
external call is skipped) and returns the Tier 1 popularity fallback:
published videos in `(views desc, createdAt desc)` order, truncated to
`limit`, with `fallback = true` and the no-history reason. -/
theorem c5_no_history_tier1_fallback (store : List Video)
    (ext : Option PersonalizedResp) (limit : Nat) :
    (getRecommendations [] [] store ext limit).fallback = true ∧
    (getRecommendations [] [] store ext limit).reason
      = some "No user history available - showing popular videos" ∧
    (getRecommendations [] [] store ext limit).recommendations
      = ((popularitySort (store.filter (fun v => v.isPublished))).take limit).map
          RecItem.plain ∧
    ((getRecommendations [] [] store ext limit).recommendations.map
        RecItem.video).Pairwise popOrder ∧
    (getRecommendations [] [] store ext limit).recommendations.length ≤ limit ∧
    getRecommendations [] [] store ext limit = getRecommendations [] [] store none limit := by
  rw [getRecommendations_eq_tier1, getRecommendations_eq_tier1]
  refine ⟨rfl, rfl, rfl, ?_, ?_, rfl⟩
  · unfold noHistoryFallback popularitySort
    rw [List.map_map]
    have hcomp : (RecItem.video ∘ RecItem.plain) = id := rfl
    rw [hcomp, List.map_id]
    exact sorted_sortTake popOrder _ limit
  · unfold noHistoryFallback
    rw [List.length_map]
    exact length_sortTake popOrder _ limit

/-- Claim C6: every fallback response of `getRecommendations` contains no
video whose id lies in the exclusion set — the union of the user's watched
and liked video ids. -/
theorem c6_fallback_respects_exclusion (w l : List String) (store : List Video)
    (ext : Option PersonalizedResp) (limit : Nat)
    (hfb : (getRecommendations w l store ext limit).fallback = true) :
    ∀ item ∈ (getRecommendations w l store ext limit).recommendations,
      item.video.id ∉ w ∧ item.video.id ∉ l := by
  by_cases hwl : w = [] ∧ l = []
  · obtain ⟨rfl, rfl⟩ := hwl
    intro item _
    exact ⟨List.not_mem_nil _, List.not_mem_nil _⟩
  · cases hbind : ext.bind PersonalizedResp.recommendations with
    | none =>
      rw [getRecommendations_eq_tier2 w l store ext limit hwl hbind]
      intro item hitem
      obtain ⟨v, rfl, _, _, hvnc⟩ :=
        serviceUnavailableFallback_mem store _ limit item hitem
      have hnotin : v.id ∉ w ++ l := by
        rw [contains_eq_decide_mem] at hvnc
        have h2 := of_decide_eq_false hvnc
        rwa [mem_eraseDups_iff] at h2
      simp only [recItem_video_plain]
      exact ⟨fun hw => hnotin (List.mem_append_left _ hw),
        fun hl => hnotin (List.mem_append_right _ hl)⟩
    | some recs =>
      obtain ⟨r, rfl⟩ : ∃ r, ext = some r := by
        cases ext with
        | none => simp at hbind
        | some r => exact ⟨r, rfl⟩
      rw [Option.some_bind] at hbind
      rw [getRecommendations_eq_success w l store r recs limit hwl hbind] at hfb
      simp [successResponse] at hfb

/-- Witness for C6: in the Tier 2 scenario the returned V4 entry is outside
both the watched and the liked lists. -/
theorem c6_fallback_respects_exclusion_witness :
    (RecItem.plain demoV4).video.id ∉ ["v1", "v2"] ∧
    (RecItem.plain demoV4).video.id ∉ ["v3"] :=
  c6_fallback_respects_exclusion ["v1", "v2"] ["v3"] [demoV5, demoV4] none 10
    (by decide) (RecItem.plain demoV4) (by decide)

/-- Claim C7: for an existing source video, when the external similarity
call failed or returned no usable list, `getSimilar` succeeds with the
same-owner fallback: published videos of the source's owner, excluding the
source, ordered by `views desc`, truncated to `limit`, with
`fallback = true`; when the owner has no other published videos the
fallback is the empty list, not an error. -/
theorem c7_similar_fallback_same_owner (store : List Video) (ext : Option SimilarResp)
    (videoId : String) (limit : Nat) (video : Video)
    (hvalid : isValidObjectId videoId = true)
    (hfound : store.find? (fun v => v.id == videoId) = some video)
    (hfail : ext.bind SimilarResp.similar_videos = none) :
    getSimilar store ext videoId limit
      = .ok (sameOwnerFallback store videoId video limit) ∧
    (sameOwnerFallback store videoId video limit).fallback = true ∧
    (sameOwnerFallback store videoId video limit).sourceVideo = videoId ∧
    ((sameOwnerFallback store videoId video limit).similarVideos.map
        SimItem.video).Pairwise viewsOrder ∧
    (sameOwnerFallback store videoId video limit).similarVideos.length ≤ limit ∧
    (∀ item ∈ (sameOwnerFallback store videoId video limit).similarVideos,
      item.video ∈ store ∧ item.video.isPublished = true ∧ item.video.id ≠ videoId ∧
        item.video.owner = video.owner) ∧
    (store.filter (fun v => v.isPublished && !(v.id == videoId) && v.owner == video.owner)
        = [] →
      (sameOwnerFallback store videoId video limit).similarVideos = []) := by
  refine ⟨?_, rfl, rfl, ?_, ?_, ?_, ?_⟩
  · rw [getSimilar, if_neg (by simp [hvalid]), hfound]
    cases ext with
    | none => rfl
    | some sr =>
      rw [Option.some_bind] at hfail
      simp [hfail]
  · unfold sameOwnerFallback viewsSort
    rw [List.map_map]
    have hcomp : (SimItem.video ∘ SimItem.plain) = id := rfl
    rw [hcomp, List.map_id]
    exact sorted_sortTake viewsOrder _ limit
  · unfold sameOwnerFallback
    rw [List.length_map]
    exact length_sortTake viewsOrder _ limit
  · intro item hitem
    unfold sameOwnerFallback viewsSort at hitem
    rw [List.mem_map] at hitem
    obtain ⟨v, hv, rfl⟩ := hitem
    have hvmem := mem_sortTake hv
    rw [List.mem_filter] at hvmem
    obtain ⟨hvstore, hp⟩ := hvmem
    simp only [Bool.and_eq_true, Bool.not_eq_true', beq_eq_false_iff_ne, beq_iff_eq] at hp
    obtain ⟨⟨hpub, hne2⟩, howner⟩ := hp
    simp only [simItem_video_plain]
    exact ⟨hvstore, hpub, hne2, howner⟩
  · intro hempty
    unfold sameOwnerFallback viewsSort
    rw [hempty]
    simp

/-- Demo source video for the C7 witness; its id is a valid 24-character
hex ObjectId. -/
def simSource : Video := ⟨"aaaaaaaaaaaaaaaaaaaaaaaa", "o1", 10, 1, true, "ts", "ds"⟩

/-- Demo same-owner video for the C7 witness. -/
def simOther : Video := ⟨"b", "o1", 5, 1, true, "tb", "db"⟩

/-- Witness for C7: with a failing external call, the same-owner fallback
returns the owner's other published video, and on a store where the owner
has no other videos it returns the empty list. -/
theorem c7_similar_fallback_same_owner_witness :
    getSimilar [simSource, simOther] none "aaaaaaaaaaaaaaaaaaaaaaaa" 10
      = .ok (sameOwnerFallback [simSource, simOther] "aaaaaaaaaaaaaaaaaaaaaaaa"
          simSource 10) ∧
    (sameOwnerFallback [simSource, simOther] "aaaaaaaaaaaaaaaaaaaaaaaa"
        simSource 10).similarVideos = [SimItem.plain simOther] ∧
    (sameOwnerFallback [simSource] "aaaaaaaaaaaaaaaaaaaaaaaa" simSource 10).similarVideos
      = [] := by
  have h := c7_similar_fallback_same_owner [simSource, simOther] none
    "aaaaaaaaaaaaaaaaaaaaaaaa" 10 simSource (by decide) (by decide) rfl
  exact ⟨h.1, by decide, by decide⟩

/-- Claim C8: `getSimilar` rejects a malformed video id immediately with a
400 validation error and an unresolvable id with a 404 NotFound, and in
both cases the result does not depend on the external service (it is never
called). -/
theorem c8_similar_validation_and_notfound (store : List Video)
    (ext ext' : Option SimilarResp) (videoId : String) (limit : Nat) :
    (isValidObjectId videoId = false →
      getSimilar store ext videoId limit = .error ⟨400, "Invalid video ID"⟩ ∧
      getSimilar store ext videoId limit = getSimilar store ext' videoId limit) ∧
    (isValidObjectId videoId = true →
      store.find? (fun v => v.id == videoId) = none →
      getSimilar store ext videoId limit = .error ⟨404, "Video not found"⟩ ∧
      getSimilar store ext videoId limit = getSimilar store ext' videoId limit) := by
  constructor
  · intro hinvalid
    have h : ∀ e : Option SimilarResp,
        getSimilar store e videoId limit = .error ⟨400, "Invalid video ID"⟩ := by
      intro e
      rw [getSimilar, if_pos (by simp [hinvalid])]
    exact ⟨h ext, (h ext).trans (h ext').symm⟩
  · intro hvalid hnone
    have h : ∀ e : Option SimilarResp,
        getSimilar store e videoId limit = .error ⟨404, "Video not found"⟩ := by
      intro e
      rw [getSimilar, if_neg (by simp [hvalid]), hnone]
    exact ⟨h ext, (h ext).trans (h ext').symm⟩

/-- Witness for C8: the malformed id `"zz"` yields the 400 error and a
valid but unknown id on an empty store yields the 404 error. -/
theorem c8_similar_validation_and_notfound_witness :
    getSimilar [] none "zz" 5 = .error ⟨400, "Invalid video ID"⟩ ∧
    getSimilar [] none "aaaaaaaaaaaaaaaaaaaaaaaa" 5 = .error ⟨404, "Video not found"⟩ := by
  have h1 := (c8_similar_validation_and_notfound [] none none "zz" 5).1 (by decide)
  have h2 := (c8_similar_validation_and_notfound [] none none
    "aaaaaaaaaaaaaaaaaaaaaaaa" 5).2 (by decide) (by decide)
  exact ⟨h1.1, h2.1⟩

/-- Claim C9: `syncVideoEmbeddings` returns the zero-count result without
depending on the external service when the published catalog is empty;
fails as a whole with the 503 ServiceUnavailable error when the catalog is
non-empty and the external call failed; and passes the external summary
through verbatim on success. -/
theorem c9_sync_zero_fail_passthrough (store : List Video) (ext ext' : Option SyncResult) :
    (store.filter (fun v => v.isPublished) = [] →
      syncVideoEmbeddings store ext = .ok (.noVideos 0) ∧
      syncVideoEmbeddings store ext = syncVideoEmbeddings store ext') ∧
    (store.filter (fun v => v.isPublished) ≠ [] →
      syncVideoEmbeddings store none
        = .error ⟨503, "Recommendation service unavailable"⟩) ∧
    (∀ result : SyncResult, store.filter (fun v => v.isPublished) ≠ [] →
      syncVideoEmbeddings store (some result) = .ok (.synced result)) := by
  refine ⟨?_, ?_, ?_⟩
  · intro hempty
    constructor <;> (unfold syncVideoEmbeddings; rw [hempty]; simp)
  · intro hne
    unfold syncVideoEmbeddings
    rw [if_neg (fun h => hne (List.length_eq_zero.mp h))]
  · intro result hne
    unfold syncVideoEmbeddings
    rw [if_neg (fun h => hne (List.length_eq_zero.mp h))]

/-- Demo published video for the C9 witness. -/
def syncVideo1 : Video := ⟨"s1", "o1", 1, 1, true, "t1", "d1"⟩

/-- Witness for C9: empty catalog gives the zero-count result; non-empty
catalog with failing call gives the 503 error; non-empty catalog with a
successful call passes the summary through. -/
theorem c9_sync_zero_fail_passthrough_witness :
    syncVideoEmbeddings [] none = .ok (.noVideos 0) ∧
    syncVideoEmbeddings [syncVideo1] none
      = .error ⟨503, "Recommendation service unavailable"⟩ ∧
    syncVideoEmbeddings [syncVideo1] (some ⟨3, 1, []⟩) = .ok (.synced ⟨3, 1, []⟩) := by
  have h1 := (c9_sync_zero_fail_passthrough [] none none).1 (by decide)
  have h2 := (c9_sync_zero_fail_passthrough [syncVideo1] none none).2.1 (by decide)
  have h3 := (c9_sync_zero_fail_passthrough [syncVideo1] (some ⟨3, 1, []⟩) none).2.2
    ⟨3, 1, []⟩ (by decide)
  exact ⟨h1.1, h2, h3⟩

/-- Claim C10: every external-client operation is a total function of the
transport outcome: it returns the successful payload on transport success
and the uniform failure signal on transport failure (`none` for the five
data operations, the fabricated unhealthy status for the health check) —
transport errors are never propagated. -/
theorem c10_client_uniform_failure_signal :
    (∀ (d : PersonalizedResp) (e : TransportError),
      getPersonalizedRecommendations (.ok d) = some d ∧
      getPersonalizedRecommendations (.error e) = none) ∧
    (∀ (d : SimilarResp) (e : TransportError),
      getSimilarVideos (.ok d) = some d ∧ getSimilarVideos (.error e) = none) ∧
    (∀ (α : Type) (d : α) (e : TransportError),
      @submitBatchEmbeddings α (Except.ok d) = some d ∧
      @submitBatchEmbeddings α (Except.error e) = none) ∧
    (∀ (d : SyncResult) (e : TransportError),
      syncEmbeddings (.ok d) = some d ∧ syncEmbeddings (.error e) = none) ∧
    (∀ (α : Type) (d : α) (e : TransportError),
      @deleteEmbedding α (Except.ok d) = some d ∧
      @deleteEmbedding α (Except.error e) = none) ∧
    (∀ (d : HealthStatus) (e : TransportError),
      checkHealth (.ok d) = d ∧
      checkHealth (.error e) = ⟨"unhealthy", some e.message⟩) :=
  ⟨fun _ _ => ⟨rfl, rfl⟩, fun _ _ => ⟨rfl, rfl⟩, fun _ _ _ => ⟨rfl, rfl⟩,
    fun _ _ => ⟨rfl, rfl⟩, fun _ _ _ => ⟨rfl, rfl⟩, fun _ _ => ⟨rfl, rfl⟩⟩
